import Mathlib

/-!
Verification of the storefront backend (`main.py`).

Shallow embedding conventions:
* Mongo documents are association lists from string keys to `Value`s; the
  Python `dict` operations (indexed assignment, `pop`, `get`) are embedded as
  structurally recursive functions with the same first-occurrence semantics.
* The store handle `db` is an `Option Store`; `none` is Python `db is None`.
* Decimal numbers are exact rationals; Python `round(x, 2)` is embedded as
  round-half-to-even on hundredths (spec section 4.2 step 4 allows either
  half-even or half-away convention, the source uses float half-even).
* An endpoint returns `Except Fault α`: `Fault.httpError s m` is a raised
  `HTTPException(status_code = s, detail = m)` and `Fault.uncaught m` is an
  exception that propagates out of the handler uncaught (a server fault).
* `bson.ObjectId` is external library code: it is embedded as a 24-hex-digit
  string, with fallible parsing (`InvalidId` on other strings) and rendering
  to lowercase hex, matching the library's documented behaviour.
* `database.py` (`create_document`, `get_documents`) and `schemas.py` are code
  of this repository that is not under `src/`; those definitions are modelled
  from the spec and are marked as such in their doc comments.
-/

/-- Values stored in a document field.  Serialized order items are kept as a
dedicated constructor (a list of product-id / quantity pairs) rather than a
nested document list, since no code path inspects them after serialization. -/
inductive Value where
  | vStr (s : String)
  | vNum (q : ℚ)
  | vOid (o : String)
  | vItems (l : List (String × ℕ))
  | vNull
deriving DecidableEq, Repr

/-- A Mongo document / Python dict: an association list of fields. -/
abbrev Doc := List (String × Value)

namespace Doc

/-- Python `d[k]` read / `d.get(k)`: the first binding of the key, if any. -/
def getField : Doc → String → Option Value
  | [], _ => none
  | (k', v') :: rest, k => if k' = k then some v' else getField rest k

/-- Python `d[k] = v`: replace the first binding in place, else append. -/
def setField : Doc → String → Value → Doc
  | [], k, v => [(k, v)]
  | (k', v') :: rest, k, v =>
    if k' = k then (k, v) :: rest else (k', v') :: setField rest k v

/-- Python `d.pop(k, None)`: drop every binding of the key. -/
def popField : Doc → String → Doc
  | [], _ => []
  | (k', v') :: rest, k =>
    if k' = k then popField rest k else (k', v') :: popField rest k

/-- Python `str(d.get("_id"))` as used in `list_products`: the string form of
the native identifier (`str(None)` is the string `"None"`; non-identifier
values are not produced by this system's write paths). -/
def idString (d : Doc) : String :=
  match d.getField "_id" with
  | some (Value.vOid o) => o
  | some (Value.vStr s) => s
  | some _ => "?"
  | none => "None"

end Doc

/-- ASCII lower-casing of one character (the only case mapping the embedded
strings need). -/
def lowerChar (c : Char) : Char :=
  if 65 ≤ c.toNat && c.toNat ≤ 90 then Char.ofNat (c.toNat + 32) else c

/-- ASCII lower-casing of a string. -/
def lowerString (s : String) : String := String.mk (s.toList.map lowerChar)

/-- Hexadecimal digit test for ObjectId parsing. -/
def isHexDigitChar (c : Char) : Bool :=
  c.isDigit || (('a' ≤ c && c ≤ 'f') || ('A' ≤ c && c ≤ 'F'))

/-- Strings accepted by the `bson.ObjectId` constructor: 24 hex digits. -/
def isValidOid (s : String) : Bool :=
  s.length == 24 && s.toList.all isHexDigitChar

/-- Embedding of `ObjectId(s)`: `some` of the canonical lowercase form on a
valid 24-hex-digit string, `none` where the constructor raises `InvalidId`. -/
def parseObjectId (s : String) : Option String :=
  if isValidOid s then some (lowerString s) else none

/-- The document store state: the two collections named in the source. -/
structure Store where
  products : List Doc
  orders : List Doc
deriving DecidableEq, Repr

/-- Outcome of a raised or escaped exception at the endpoint boundary. -/
inductive Fault where
  | httpError (status : ℕ) (detail : String)
  | uncaught (msg : String)
deriving DecidableEq, Repr

/-- Embedding of `collection.find_one({"_id": ObjectId(...)})`: the first
document whose `_id` field is the given native identifier. -/
def findOne (docs : List Doc) (oid : String) : Option Doc :=
  docs.find? fun d =>
    match d.getField "_id" with
    | some (Value.vOid o) => o == oid
    | _ => false

/-- Mongo equality filter `{"category": c}` on the category field. -/
def matchCategory (c : String) (d : Doc) : Bool :=
  match d.getField "category" with
  | some (Value.vStr s) => s == c
  | _ => false

/-- Substring test on character lists, used by the title filter. -/
def charsContain (hay pat : List Char) : Bool :=
  (List.range (hay.length + 1)).any fun i => pat.isPrefixOf (hay.drop i)

/-- Mongo filter `{"title": {"$regex": q, "$options": "i"}}` for a literal
pattern: case-insensitive substring match against the title field. -/
def titleMatches (q : String) (d : Doc) : Bool :=
  match d.getField "title" with
  | some (Value.vStr t) =>
    charsContain (t.toList.map lowerChar) (q.toList.map lowerChar)
  | _ => false

/-- The filter dictionary built by `list_products`: an optional category
constraint and an optional title-pattern constraint. -/
structure Filt where
  category : Option String
  title : Option String
deriving DecidableEq, Repr

/-- Satisfaction of a filter dictionary by a document. -/
def matchFilt (f : Filt) (d : Doc) : Bool :=
  (match f.category with
   | none => true
   | some c => matchCategory c d)
  && (match f.title with
      | none => true
      | some q => titleMatches q d)

/-- Python truthiness of an `Optional[str]` guard (`if category:`): both
`None` and the empty string impose no constraint. -/
def optTruthy : Option String → Option String
  | none => none
  | some s => if s = "" then none else some s

/-- Modelled from the spec: `get_documents` of `database.py` is absent from
`src/`; per spec sections 4.1 and 6 it returns the collection's records
matching the filter, in natural (insertion) order, capped at `limit`. -/
def get_documents (docs : List Doc) (f : Filt) (limit : ℕ) : List Doc :=
  (docs.filter fun d => matchFilt f d).take limit

/-- Output mapping of one stored record in `list_products`:
`d["id"] = str(d.get("_id")); d.pop("_id", None)`. -/
def mapOutDoc (d : Doc) : Doc :=
  (d.setField "id" (Value.vStr d.idString)).popField "_id"

/-- Embedding of the `list_products` endpoint. -/
def list_products (db : Option Store) (category q : Option String)
    (limit : ℕ) : List Doc :=
  match db with
  | none => []
  | some store =>
    let f : Filt := { category := optTruthy category, title := optTruthy q }
    (get_documents store.products f limit).map mapOutDoc

/-- Embedding of the `get_product` endpoint.  The inner `match` is the `try`
body; its result is then passed through the blanket `except Exception`
clause, which turns every raised exception — the `InvalidId` parse failure
and the raised 404 alike — into a 400 "Invalid product ID". -/
def get_product (db : Option Store) (product_id : String) : Except Fault Doc :=
  match db with
  | none => Except.error (Fault.httpError 500 "Database not available")
  | some store =>
    let body : Except Fault Doc :=
      match parseObjectId product_id with
      | none => Except.error (Fault.uncaught ("InvalidId: " ++ product_id))
      | some oid =>
        match findOne store.products oid with
        | none => Except.error (Fault.httpError 404 "Product not found")
        | some doc =>
          Except.ok ((doc.setField "id" (Value.vStr oid)).popField "_id")
    match body with
    | Except.ok d => Except.ok d
    | Except.error _ => Except.error (Fault.httpError 400 "Invalid product ID")

/-- Modelled from the spec: the `OrderItem` shape of `schemas.py` (absent from
`src/`), per spec section 3: a product reference and a quantity. -/
structure OrderItem where
  product_id : String
  quantity : ℕ
deriving DecidableEq, Repr

/-- Modelled from the spec: the `Order` shape of `schemas.py` (absent from
`src/`), per spec section 3: a sequence of items plus arbitrary metadata
fields passed through unchanged (these may include client-supplied price or
total fields; the pricing engine never reads them). -/
structure Order where
  items : List OrderItem
  metadata : Doc
deriving DecidableEq, Repr

/-- Serialization `order.model_dump()`: the items under the `items` key plus
the passthrough metadata fields. -/
def Order.model_dump (o : Order) : Doc :=
  ("items", Value.vItems (o.items.map fun it => (it.product_id, it.quantity)))
    :: o.metadata

/-- Unit price read in `create_order`: `float(prod.get("price", 0))`, so a
missing price field contributes 0 and never fails. -/
def prodPrice (d : Doc) : ℚ :=
  match d.getField "price" with
  | some (Value.vNum q) => q
  | _ => 0

/-- Round-half-to-even to an integer. -/
def roundHalfEven (q : ℚ) : ℤ :=
  let f : ℤ := ⌊q⌋
  let frac : ℚ := q - (f : ℚ)
  if frac < 1 / 2 then f
  else if 1 / 2 < frac then f + 1
  else if f % 2 = 0 then f else f + 1

/-- Python `round(x, 2)`: round to hundredths, half to even. -/
def roundTo2 (q : ℚ) : ℚ := ((roundHalfEven (q * 100) : ℚ)) / 100

/-- Resolution of one order item: parse the product reference, then look the
product up; `none` when either step fails. -/
def resolveItem (products : List Doc) (it : OrderItem) : Option Doc :=
  (parseObjectId it.product_id).bind (findOne products)

/-- Unit price an item resolves to (0 when the item does not resolve; only
used under resolvability hypotheses). -/
def itemPrice (products : List Doc) (it : OrderItem) : ℚ :=
  match resolveItem products it with
  | some d => prodPrice d
  | none => 0

/-- The item loop of `create_order`, accumulating the server-side total.  A
reference that fails to parse raises `InvalidId`, which no handler in
`create_order` catches; a well-formed reference matching no record raises the
404 naming the original id string. -/
def orderTotalLoop (products : List Doc) :
    List OrderItem → ℚ → Except Fault ℚ
  | [], acc => Except.ok acc
  | item :: rest, acc =>
    match parseObjectId item.product_id with
    | none => Except.error (Fault.uncaught ("InvalidId: " ++ item.product_id))
    | some oid =>
      match findOne products oid with
      | none =>
        Except.error
          (Fault.httpError 404 ("Product not found: " ++ item.product_id))
      | some prod =>
        orderTotalLoop products rest (acc + prodPrice prod * item.quantity)

/-- Server-side total computation over the items, in sequence order. -/
def computeTotal (products : List Doc) (items : List OrderItem) :
    Except Fault ℚ :=
  orderTotalLoop products items 0

/-- Modelled from the spec: the identifier the store assigns to a new order
record (`create_document` of `database.py` is absent from `src/`); the claims
only need it to be a function of the store state. -/
def freshOid (st : Store) : String := toString st.orders.length

/-- Modelled from the spec: `create_document("order", payload)` of
`database.py` (absent from `src/`), per spec section 4.2 steps 6 and 7:
persist the payload as a new order record and return the new identifier in
string form. -/
def create_document_order (st : Store) (payload : Doc) : String × Store :=
  let oid := freshOid st
  (oid,
   { st with orders := st.orders ++ [payload.setField "_id" (Value.vOid oid)] })

/-- Embedding of the `create_order` endpoint.  The second component is the
store state after the call (unchanged on every failure path). -/
def create_order (db : Option Store) (order : Order) :
    Except Fault String × Option Store :=
  match db with
  | none => (Except.error (Fault.httpError 500 "Database not available"), none)
  | some store =>
    match computeTotal store.products order.items with
    | Except.error f => (Except.error f, some store)
    | Except.ok total =>
      let payload :=
        (Order.model_dump order).setField "total" (Value.vNum (roundTo2 total))
      let res := create_document_order store payload
      (Except.ok res.1, some res.2)

/-- Total of the most recently persisted order record after a call, when one
exists: the observation the hyperproperty claims compare. -/
def persistedTotal (r : Except Fault String × Option Store) : Option Value :=
  match r.2 with
  | none => none
  | some st =>
    match st.orders.getLast? with
    | none => none
    | some d => d.getField "total"

namespace Doc

/-- Reading the key just written returns the written value. -/
theorem getField_setField_self (d : Doc) (k : String) (v : Value) :
    (d.setField k v).getField k = some v := by
  induction d with
  | nil => simp [setField, getField]
  | cons p rest ih =>
    obtain ⟨k0, v0⟩ := p
    by_cases h : k0 = k <;> simp [setField, getField, h, ih]

/-- Writing one key leaves every other key's value unchanged. -/
theorem getField_setField_ne (d : Doc) (k k' : String) (v : Value)
    (h : k' ≠ k) : (d.setField k v).getField k' = d.getField k' := by
  induction d with
  | nil => simp [setField, getField, Ne.symm h]
  | cons p rest ih =>
    obtain ⟨k0, v0⟩ := p
    by_cases h0 : k0 = k
    · subst h0
      simp [setField, getField, Ne.symm h, h]
    · by_cases h1 : k0 = k' <;> simp [setField, getField, h0, h1, ih, h]

/-- A popped key is absent. -/
theorem getField_popField_self (d : Doc) (k : String) :
    (d.popField k).getField k = none := by
  induction d with
  | nil => simp [popField, getField]
  | cons p rest ih =>
    obtain ⟨k0, v0⟩ := p
    by_cases h : k0 = k <;> simp [popField, getField, h, ih]

/-- Popping one key leaves every other key's value unchanged. -/
theorem getField_popField_ne (d : Doc) (k k' : String)
    (h : k' ≠ k) : (d.popField k).getField k' = d.getField k' := by
  induction d with
  | nil => simp [popField, getField]
  | cons p rest ih =>
    obtain ⟨k0, v0⟩ := p
    by_cases h0 : k0 = k
    · subst h0
      simp [popField, getField, Ne.symm h, ih]
    · by_cases h1 : k0 = k' <;> simp [popField, getField, h0, h1, ih, h]

end Doc

/-- The mapped output record's `id` field holds the identifier string. -/
theorem mapOutDoc_getField_id (d : Doc) :
    (mapOutDoc d).getField "id" = some (Value.vStr d.idString) := by
  unfold mapOutDoc
  rw [Doc.getField_popField_ne _ _ _ (by decide)]
  exact Doc.getField_setField_self ..

/-- The mapped output record no longer carries the native `_id` field. -/
theorem mapOutDoc_getField_mongoId (d : Doc) :
    (mapOutDoc d).getField "_id" = none :=
  Doc.getField_popField_self ..

/-- The mapping preserves every field other than `id` and `_id`. -/
theorem mapOutDoc_getField_other (d : Doc) (k : String)
    (h1 : k ≠ "id") (h2 : k ≠ "_id") :
    (mapOutDoc d).getField k = d.getField k := by
  unfold mapOutDoc
  rw [Doc.getField_popField_ne _ _ _ h2, Doc.getField_setField_ne _ _ _ _ h1]

/-- Running the item loop over a resolvable leading segment accumulates its
contributions and continues with the remaining items. -/
theorem orderTotalLoop_append_resolved (ps : List Doc) :
    ∀ (pre l : List OrderItem) (acc : ℚ),
      (∀ it ∈ pre, (resolveItem ps it).isSome) →
      orderTotalLoop ps (pre ++ l) acc =
        orderTotalLoop ps l
          (acc + (pre.map fun it => itemPrice ps it * it.quantity).sum) := by
  intro pre
  induction pre with
  | nil => intro l acc _; simp
  | cons it rest ih =>
    intro l acc h
    have hit := h it (List.mem_cons_self ..)
    have hrest : ∀ x ∈ rest, (resolveItem ps x).isSome := fun x hx =>
      h x (List.mem_cons_of_mem _ hx)
    cases hp : parseObjectId it.product_id with
    | none =>
      exfalso
      unfold resolveItem at hit
      rw [hp] at hit
      simp at hit
    | some oid =>
      cases hf : findOne ps oid with
      | none =>
        exfalso
        unfold resolveItem at hit
        rw [hp] at hit
        simp [hf] at hit
      | some prod =>
        have hip : itemPrice ps it = prodPrice prod := by
          unfold itemPrice resolveItem
          rw [hp]
          simp [hf]
        simp only [List.cons_append, List.append_eq, orderTotalLoop, hp, hf]
        rw [ih l _ hrest]
        congr 1
        rw [List.map_cons, List.sum_cons, hip]
        ring

/-- A fully resolvable item list yields the sequence-order sum. -/
theorem orderTotalLoop_resolved (ps : List Doc) (items : List OrderItem)
    (acc : ℚ) (h : ∀ it ∈ items, (resolveItem ps it).isSome) :
    orderTotalLoop ps items acc =
      Except.ok (acc + (items.map fun it => itemPrice ps it * it.quantity).sum) := by
  have := orderTotalLoop_append_resolved ps items [] acc h
  simpa [orderTotalLoop] using this

/-- An item list containing an unresolvable reference makes the loop fail. -/
theorem orderTotalLoop_unresolved (ps : List Doc) :
    ∀ (items : List OrderItem) (acc : ℚ),
      (∃ it ∈ items, resolveItem ps it = none) →
      ∃ f, orderTotalLoop ps items acc = Except.error f := by
  intro items
  induction items with
  | nil => intro acc h; simp at h
  | cons it rest ih =>
    intro acc h
    cases hp : parseObjectId it.product_id with
    | none =>
      exact ⟨Fault.uncaught ("InvalidId: " ++ it.product_id),
        by simp [orderTotalLoop, hp]⟩
    | some oid =>
      cases hf : findOne ps oid with
      | none =>
        exact ⟨Fault.httpError 404 ("Product not found: " ++ it.product_id),
          by simp [orderTotalLoop, hp, hf]⟩
      | some prod =>
        have hrest : ∃ x ∈ rest, resolveItem ps x = none := by
          obtain ⟨x, hx, hres⟩ := h
          cases hx with
          | head =>
            exfalso
            unfold resolveItem at hres
            rw [hp] at hres
            simp [hf] at hres
          | tail _ hx2 => exact ⟨x, hx2, hres⟩
        obtain ⟨f, hf2⟩ := ih (acc + prodPrice prod * it.quantity) hrest
        exact ⟨f, by simp [orderTotalLoop, hp, hf, hf2]⟩

/-- Identifier of the Widget fixture product (spec section 8 scenario). -/
def oidW : String := "0123456789abcdef01234567"

/-- Identifier of the Gadget fixture product. -/
def oidG : String := "89abcdef0123456789abcdef"

/-- The Widget fixture record of the spec's test scenario. -/
def widgetDoc : Doc :=
  [("_id", Value.vOid oidW), ("title", Value.vStr "Widget"),
   ("category", Value.vStr "tools"), ("price", Value.vNum (mkRat 999 100))]

/-- The Gadget fixture record of the spec's test scenario. -/
def gadgetDoc : Doc :=
  [("_id", Value.vOid oidG), ("title", Value.vStr "Gadget"),
   ("category", Value.vStr "electronics"), ("price", Value.vNum (mkRat 39 2))]

/-- The fixture catalog of the spec's test scenario. -/
def exStore : Store := { products := [widgetDoc, gadgetDoc], orders := [] }

/-- An order over the fixture catalog, carrying client-supplied price and
total fields in its metadata. -/
def exOrder : Order :=
  { items := [OrderItem.mk oidW 2, OrderItem.mk oidG 1],
    metadata := [("customer", Value.vStr "a"), ("price", Value.vNum 1),
                 ("total", Value.vNum 1)] }

/-- The same order with different client-supplied price and total fields. -/
def exOrder2 : Order :=
  { items := [OrderItem.mk oidW 2, OrderItem.mk oidG 1],
    metadata := [("customer", Value.vStr "a"), ("price", Value.vNum 2),
                 ("total", Value.vNum 500)] }

/-- An order whose single item carries an unparseable product reference. -/
def exOrderBad : Order := { items := [OrderItem.mk "bad" 1], metadata := [] }

/-- Identifier of the fixture product that lacks a price field. -/
def oidNP : String := "aaaaaaaaaaaaaaaaaaaaaaaa"

/-- A stored product record with no price field. -/
def nopriceDoc : Doc :=
  [("_id", Value.vOid oidNP), ("title", Value.vStr "Mystery")]

/-- A catalog whose only product lacks a price field. -/
def exStoreNP : Store := { products := [nopriceDoc], orders := [] }

/-- An order for three units of the priceless product. -/
def exOrderNP : Order :=
  { items := [OrderItem.mk oidNP 3], metadata := [] }

/-- C1: for every order whose items all resolve to stored product records,
`create_order` persists exactly one new order record whose `total` field
equals the sum, in sequence order over the items, of the product's stored
price times the item quantity, rounded to 2 digits. -/
theorem createOrder_total_correct (st : Store) (o : Order)
    (h : ∀ it ∈ o.items, (resolveItem st.products it).isSome) :
    ∃ d : Doc,
      (create_order (some st) o).1 = Except.ok (freshOid st) ∧
      (create_order (some st) o).2 = some { st with orders := st.orders ++ [d] } ∧
      d.getField "total" =
        some (Value.vNum (roundTo2
          ((o.items.map fun it => itemPrice st.products it * it.quantity).sum))) := by
  have hct : computeTotal st.products o.items =
      Except.ok ((o.items.map fun it => itemPrice st.products it * it.quantity).sum) := by
    have h0 := orderTotalLoop_resolved st.products o.items 0 h
    simpa [computeTotal] using h0
  refine ⟨((Order.model_dump o).setField "total"
      (Value.vNum (roundTo2
        ((o.items.map fun it => itemPrice st.products it * it.quantity).sum)))).setField
      "_id" (Value.vOid (freshOid st)), ?_, ?_, ?_⟩
  · simp [create_order, hct, create_document_order]
  · simp [create_order, hct, create_document_order]
  · rw [Doc.getField_setField_ne _ _ _ _ (by decide)]
    exact Doc.getField_setField_self ..

/-- Witness for C1 on the spec's fixture scenario (total 39.48). -/
theorem createOrder_total_correct_witness :
    (∀ it ∈ exOrder.items, (resolveItem exStore.products it).isSome) ∧
    (∃ d : Doc,
      (create_order (some exStore) exOrder).1 = Except.ok (freshOid exStore) ∧
      (create_order (some exStore) exOrder).2 =
        some { exStore with orders := exStore.orders ++ [d] } ∧
      d.getField "total" =
        some (Value.vNum (roundTo2
          ((exOrder.items.map fun it =>
            itemPrice exStore.products it * it.quantity).sum)))) :=
  ⟨by decide, createOrder_total_correct exStore exOrder (by decide)⟩

/-- C4: an order containing an unresolvable product reference (missing or
unparseable) makes `create_order` fail and leaves the store — in particular
the order collection — unchanged. -/
theorem createOrder_unresolved_no_persist (st : Store) (o : Order)
    (h : ∃ it ∈ o.items, resolveItem st.products it = none) :
    (∃ f, (create_order (some st) o).1 = Except.error f) ∧
    (create_order (some st) o).2 = some st := by
  obtain ⟨f, hf⟩ := orderTotalLoop_unresolved st.products o.items 0 h
  have hct : computeTotal st.products o.items = Except.error f := hf
  exact ⟨⟨f, by simp [create_order, hct]⟩, by simp [create_order, hct]⟩

/-- Witness for C4: an order naming an unparseable product id against the
fixture catalog fails and persists nothing. -/
theorem createOrder_unresolved_no_persist_witness :
    (∃ it ∈ exOrderBad.items, resolveItem exStore.products it = none) ∧
    ((∃ f, (create_order (some exStore) exOrderBad).1 = Except.error f) ∧
     (create_order (some exStore) exOrderBad).2 = some exStore) :=
  ⟨by decide, createOrder_unresolved_no_persist exStore exOrderBad (by decide)⟩

/-- C5: the persisted total depends only on the stored product records and
the items (product references and quantities): submissions over the same
store differing only in other (client-supplied) fields persist equal totals. -/
theorem createOrder_total_client_independent (db : Option Store) (o1 o2 : Order)
    (h : o1.items = o2.items) :
    persistedTotal (create_order db o1) = persistedTotal (create_order db o2) := by
  cases db with
  | none => rfl
  | some st =>
    have hct : computeTotal st.products o1.items =
        computeTotal st.products o2.items := by rw [h]
    cases hc : computeTotal st.products o2.items with
    | error f =>
      rw [hc] at hct
      simp [create_order, hct, hc, persistedTotal]
    | ok total =>
      rw [hc] at hct
      simp only [create_order, hct, hc]
      simp only [persistedTotal, create_document_order, List.getLast?_concat]
      rw [Doc.getField_setField_ne _ _ _ _ (by decide),
          Doc.getField_setField_self,
          Doc.getField_setField_ne _ _ _ _ (by decide),
          Doc.getField_setField_self]

/-- Witness for C5: the two fixture orders differ only in client price and
total fields and persist the same total. -/
theorem createOrder_total_client_independent_witness :
    exOrder.items = exOrder2.items ∧
    persistedTotal (create_order (some exStore) exOrder) =
      persistedTotal (create_order (some exStore) exOrder2) :=
  ⟨rfl, createOrder_total_client_independent (some exStore) exOrder exOrder2 rfl⟩

/-- C8: an item resolving to a stored record that lacks a price field does
not make the call fail; its unit price is 0 and it contributes 0 times its
quantity to the total. -/
theorem createOrder_missing_price_zero (st : Store) (o : Order)
    (it : OrderItem) (d : Doc)
    (h : ∀ x ∈ o.items, (resolveItem st.products x).isSome)
    (_hit : it ∈ o.items)
    (hres : resolveItem st.products it = some d)
    (hp : d.getField "price" = none) :
    (computeTotal st.products o.items).isOk = true ∧
    itemPrice st.products it * it.quantity = 0 ∧
    computeTotal st.products o.items =
      Except.ok ((o.items.map fun x => itemPrice st.products x * x.quantity).sum) := by
  have hct : computeTotal st.products o.items =
      Except.ok ((o.items.map fun x => itemPrice st.products x * x.quantity).sum) := by
    have h0 := orderTotalLoop_resolved st.products o.items 0 h
    simpa [computeTotal] using h0
  refine ⟨by rw [hct]; rfl, ?_, hct⟩
  simp [itemPrice, hres, prodPrice, hp]

/-- Witness for C8 on the priceless fixture product. -/
theorem createOrder_missing_price_zero_witness :
    (∀ x ∈ exOrderNP.items, (resolveItem exStoreNP.products x).isSome) ∧
    (OrderItem.mk oidNP 3 ∈ exOrderNP.items) ∧
    resolveItem exStoreNP.products (OrderItem.mk oidNP 3) = some nopriceDoc ∧
    nopriceDoc.getField "price" = none ∧
    ((computeTotal exStoreNP.products exOrderNP.items).isOk = true ∧
     itemPrice exStoreNP.products (OrderItem.mk oidNP 3) *
       (OrderItem.mk oidNP 3).quantity = 0 ∧
     computeTotal exStoreNP.products exOrderNP.items =
       Except.ok ((exOrderNP.items.map fun x =>
         itemPrice exStoreNP.products x * x.quantity).sum)) :=
  ⟨by decide, by decide, by decide, by decide,
   createOrder_missing_price_zero exStoreNP exOrderNP (OrderItem.mk oidNP 3)
     nopriceDoc (by decide) (by decide) (by decide) (by decide)⟩

/-- C3 fails on the code as stated: an unparseable product reference makes
`create_order` propagate the `InvalidId` parse failure uncaught, which is not
the not-found error naming the id that a well-formed unmatched reference
produces. -/
theorem createOrder_unparseable_counterexample :
    (create_order (some exStore) exOrderBad).1 =
      Except.error (Fault.uncaught "InvalidId: bad") ∧
    Fault.uncaught "InvalidId: bad" ≠
      Fault.httpError 404 "Product not found: bad" :=
  ⟨rfl, by decide⟩

/-- C3 amended: when the first unresolvable item of an order has an
unparseable product_id (every earlier item resolves), `create_order` fails
with the propagated `InvalidId` parse failure — an outcome distinct from
every not-found error — and no order record is persisted; only a well-formed
id matching no record yields the 404 naming the id. -/
theorem createOrder_unparseable_uncaught (st : Store)
    (pre rest : List OrderItem) (it : OrderItem) (md : Doc)
    (hpre : ∀ x ∈ pre, (resolveItem st.products x).isSome)
    (hp : parseObjectId it.product_id = none) :
    (create_order (some st) (Order.mk (pre ++ it :: rest) md)).1 =
      Except.error (Fault.uncaught ("InvalidId: " ++ it.product_id)) ∧
    (create_order (some st) (Order.mk (pre ++ it :: rest) md)).2 = some st ∧
    ∀ s, Fault.uncaught ("InvalidId: " ++ it.product_id) ≠
      Fault.httpError 404 s := by
  have hl := orderTotalLoop_append_resolved st.products pre (it :: rest) 0 hpre
  have hstep : orderTotalLoop st.products (it :: rest)
      (0 + (pre.map fun x => itemPrice st.products x * x.quantity).sum) =
      Except.error (Fault.uncaught ("InvalidId: " ++ it.product_id)) := by
    simp [orderTotalLoop, hp]
  have hct : computeTotal st.products (pre ++ it :: rest) =
      Except.error (Fault.uncaught ("InvalidId: " ++ it.product_id)) := by
    unfold computeTotal
    rw [hl, hstep]
  refine ⟨?_, ?_, ?_⟩
  · simp [create_order, hct]
  · simp [create_order, hct]
  · intro s hcontra
    exact Fault.noConfusion hcontra

/-- Witness for the amended C3: a resolvable first item followed by an
unparseable reference. -/
theorem createOrder_unparseable_uncaught_witness :
    (∀ x ∈ ([OrderItem.mk oidW 1] : List OrderItem),
      (resolveItem exStore.products x).isSome) ∧
    parseObjectId "zz" = none ∧
    ((create_order (some exStore)
        (Order.mk ([OrderItem.mk oidW 1] ++ OrderItem.mk "zz" 1 :: []) [])).1 =
      Except.error (Fault.uncaught ("InvalidId: " ++ "zz")) ∧
    (create_order (some exStore)
        (Order.mk ([OrderItem.mk oidW 1] ++ OrderItem.mk "zz" 1 :: []) [])).2 =
      some exStore ∧
    ∀ s, Fault.uncaught ("InvalidId: " ++ "zz") ≠ Fault.httpError 404 s) :=
  ⟨by decide, by decide,
   createOrder_unparseable_uncaught exStore [OrderItem.mk oidW 1] []
     (OrderItem.mk "zz" 1) [] (by decide) (by decide)⟩

/-- C2 fails on the code: the 404 raised inside the `try` for a well-formed
id matching no record is caught by the blanket `except Exception` and
re-reported as the 400 malformed-identifier error, so the not-found outcome
is identical to — not distinct from — the malformed-identifier outcome. -/
theorem getProduct_notFound_collapsed :
    get_product (some exStore) "bbbbbbbbbbbbbbbbbbbbbbbb" =
      Except.error (Fault.httpError 400 "Invalid product ID") ∧
    get_product (some exStore) "not-hex" =
      Except.error (Fault.httpError 400 "Invalid product ID") ∧
    get_product (some exStore) "bbbbbbbbbbbbbbbbbbbbbbbb" =
      get_product (some exStore) "not-hex" :=
  ⟨rfl, rfl, rfl⟩

/-- C6: with no filters `list_products` returns all stored products up to
`limit`; a category filter keeps exactly the stored records whose category
field equals the given string; a query filter keeps exactly those whose
title matches the pattern case-insensitively; both filters together keep
exactly the records satisfying both. -/
theorem listProducts_filter_semantics (st : Store) (lim : ℕ) (c qs : String)
    (hc : c ≠ "") (hq : qs ≠ "") :
    list_products (some st) none none lim =
      (st.products.take lim).map mapOutDoc ∧
    list_products (some st) (some c) none lim =
      ((st.products.filter fun d => matchCategory c d).take lim).map mapOutDoc ∧
    list_products (some st) none (some qs) lim =
      ((st.products.filter fun d => titleMatches qs d).take lim).map mapOutDoc ∧
    list_products (some st) (some c) (some qs) lim =
      ((st.products.filter fun d =>
        matchCategory c d && titleMatches qs d).take lim).map mapOutDoc := by
  refine ⟨?_, ?_, ?_, ?_⟩ <;>
    simp [list_products, get_documents, matchFilt, optTruthy, hc, hq,
      List.filter_true]

/-- Witness for C6 on the fixture catalog with the spec's scenario filters. -/
theorem listProducts_filter_semantics_witness :
    ("tools" : String) ≠ "" ∧ ("gadget" : String) ≠ "" ∧
    (list_products (some exStore) none none 50 =
      (exStore.products.take 50).map mapOutDoc ∧
    list_products (some exStore) (some "tools") none 50 =
      ((exStore.products.filter fun d =>
        matchCategory "tools" d).take 50).map mapOutDoc ∧
    list_products (some exStore) none (some "gadget") 50 =
      ((exStore.products.filter fun d =>
        titleMatches "gadget" d).take 50).map mapOutDoc ∧
    list_products (some exStore) (some "tools") (some "gadget") 50 =
      ((exStore.products.filter fun d =>
        matchCategory "tools" d && titleMatches "gadget" d).take 50).map
        mapOutDoc) :=
  ⟨by decide, by decide,
   listProducts_filter_semantics exStore 50 "tools" "gadget"
     (by decide) (by decide)⟩

/-- C7: when the store is unavailable, `list_products` returns the empty
sequence for every combination of category, query and limit arguments (its
total return type admits no raised fault on this path). -/
theorem listProducts_db_unavailable (category q : Option String) (limit : ℕ) :
    list_products none category q limit = [] := rfl

/-- C9: every record returned by `list_products` is a stored record with the
native `_id` field removed and an `id` field holding the identifier's string
form, all other fields unchanged under their original names. -/
theorem listProducts_output_mapping (st : Store) (category q : Option String)
    (lim : ℕ) (d' : Doc) (h : d' ∈ list_products (some st) category q lim) :
    ∃ d, d ∈ st.products ∧
      d'.getField "id" = some (Value.vStr d.idString) ∧
      d'.getField "_id" = none ∧
      ∀ k, k ≠ "id" → k ≠ "_id" → d'.getField k = d.getField k := by
  simp only [list_products, List.mem_map] at h
  obtain ⟨d, hd, rfl⟩ := h
  refine ⟨d, ?_, mapOutDoc_getField_id d, mapOutDoc_getField_mongoId d,
    fun k h1 h2 => mapOutDoc_getField_other d k h1 h2⟩
  simp only [get_documents] at hd
  exact List.mem_of_mem_filter (List.mem_of_mem_take hd)

/-- Witness for C9: the mapped Widget record as returned by an unfiltered
listing over the fixture catalog. -/
theorem listProducts_output_mapping_witness :
    mapOutDoc widgetDoc ∈ list_products (some exStore) none none 50 ∧
    (∃ d, d ∈ exStore.products ∧
      (mapOutDoc widgetDoc).getField "id" = some (Value.vStr d.idString) ∧
      (mapOutDoc widgetDoc).getField "_id" = none ∧
      ∀ k, k ≠ "id" → k ≠ "_id" →
        (mapOutDoc widgetDoc).getField k = d.getField k) :=
  ⟨by decide,
   listProducts_output_mapping exStore none none 50 (mapOutDoc widgetDoc)
     (by decide)⟩

/-- C10: an empty-string category or query argument is falsy in the filter
guards, so it imposes no constraint: the call returns exactly what omitting
the parameter returns. -/
theorem listProducts_emptyString_noFilter (db : Option Store)
    (c q : Option String) (lim : ℕ) :
    list_products db (some "") q lim = list_products db none q lim ∧
    list_products db c (some "") lim = list_products db c none lim := by
  constructor <;> cases db <;> rfl
